import Mathlib

/-!
Verification of the Wingman deployment orchestration engine
(`deployment_manager.py` and the deployment routes of `app.py`) against its
natural-language specification.

The Python source is shallowly embedded: the mutable per-deployment dict
becomes the `Deployment` structure, the module-level `self.deployments` dict
becomes an association list with Python-dict insert/lookup semantics, and the
outcomes of the external HTTP calls (Cloudflare, Pterodactyl, the compensating
DNS delete) are supplied as explicit inputs, since they are the only sources of
nondeterminism in the orchestration paths.  Wall-clock timestamps
(`datetime.now()`) are threaded as explicit parameters; the `[timestamp] `
prefix that `_add_log` puts in front of every log line is abstracted away (log
entries are stored as the raw message), and the best-effort WebSocket
emissions, which the source explicitly swallows, are dropped.
-/

/-- One entry of `deployment['steps']`: a dict `{'name': ..., 'status': ...}`
(`deployment_manager.py`, `_update_deployment_step`). -/
structure Step where
  name : String
  status : String
deriving Repr, DecidableEq

/-- The per-deployment record built in `start_deployment`
(`deployment_manager.py` lines 359-382), together with the keys that later
code paths add to the dict (`error`, `pterodactyl_server_id`,
`pterodactyl_server_uuid`, `rolled_back_at`); absent dict keys are `none`.
The `pterodactyl_nest_id`/`egg_id`/`node_id`/`allocation_id` selectors are
read by `_execute_deployment` and `create_pterodactyl_server` via
`deployment.get(...)`; `start_deployment` never stores them, so they are
`none` in every record it creates. -/
structure Deployment where
  deployment_id : String
  subdomain : Option String
  server_ip : Option String
  game_port : Option Nat
  game_type : Option String
  additional_ports : List Nat
  memory : Nat
  disk : Nat
  enable_ssl : Bool
  enable_monitoring : Bool
  protocol : String
  domain : String
  created_at : String
  status : String
  state : String
  progress : Nat
  steps : List Step
  cf_record_id : Option String
  unifi_rule_ids : List String
  npm_proxy_id : Option String
  ptero_server_uuid : Option String
  logs : List String
  error : Option String := none
  pterodactyl_nest_id : Option Nat := none
  pterodactyl_egg_id : Option Nat := none
  pterodactyl_node_id : Option Nat := none
  pterodactyl_allocation_id : Option Nat := none
  pterodactyl_server_id : Option Nat := none
  pterodactyl_server_uuid : Option String := none
  rolled_back_at : Option String := none
deriving Repr, DecidableEq

/-- The slice of `DeploymentManager.config` (`_load_config_from_env` /
`save_config`) consumed by the orchestration, rollback and template paths.
Python truthiness of the string fields ("not configured" checks) is the
emptiness test. -/
structure Config where
  domain : String
  cf_api_token : String
  cf_zone_id : String
  npm_api_url : String
  unifi_url : String
  enable_auto_unifi : Bool
  pterodactyl_enabled : Bool
  pterodactyl_url : String
  pterodactyl_api_key : String
  public_ip : String
deriving Repr, DecidableEq

/-- The request body of `start_deployment` (`deployment_config`); `none`
models an absent key, so `.get(k, default)` becomes `Option.getD`. -/
structure DeploymentConfig where
  subdomain : Option String := none
  server_ip : Option String := none
  game_port : Option Nat := none
  game_type : Option String := none
  additional_ports : List Nat := []
  memory : Option Nat := none
  disk : Option Nat := none
  enable_ssl : Option Bool := none
  enable_monitoring : Option Bool := none
  protocol : Option String := none
  save_template : Bool := false
  template_name : Option String := none
deriving Repr, DecidableEq

/-- Outcome of the Cloudflare stage's external HTTP calls in
`_configure_cloudflare`: an exception raised by the ipify/DNS requests, a
response JSON with `success: true` carrying the new record id, or one with
`success: false` carrying the `errors` text. -/
inductive CfOutcome where
  | raised (msg : String)
  | apiSuccess (recordId : String)
  | apiError (errs : String)
deriving Repr, DecidableEq

/-- Outcome of the Pterodactyl server-creation HTTP call in
`create_pterodactyl_server`, once the configuration and parameter checks have
passed: a created server (id and uuid from the response JSON) or a request
error message. -/
inductive PteroOutcome where
  | created (serverId : Nat) (serverUuid : String)
  | httpError (msg : String)
deriving Repr, DecidableEq

/-- The nondeterministic environment of one `_execute_deployment` run: the
results of the external calls the worker may make. -/
structure Env where
  cf : CfOutcome
  ptero : PteroOutcome
deriving Repr, DecidableEq

/-- Result dict of `create_pterodactyl_server`: `{'success': True, 'server_id',
'server_uuid', 'server_name', ...}` or `{'success': False, 'error': ...}`. -/
inductive PteroResult where
  | success (serverId : Nat) (serverUuid : String) (serverName : String)
  | failure (error : String)
deriving Repr, DecidableEq

/-- Translation of `DeploymentManager._add_log`: append the entry to
`deployment['logs']`.  The wall-clock `[timestamp] ` prefix and the
best-effort `socketio.emit` (swallowed by the source on failure) are
abstracted away; entries are stored as the raw message. -/
def addLog (d : Deployment) (message : String) : Deployment :=
  { d with logs := d.logs ++ [message] }

/-- The step-list mutation inside `_update_deployment_step`: set the status of
the first step with the given name, or append a new `{name, status}` entry
when none exists. -/
def updateStepList : List Step → String → String → List Step
  | [], stepName, status => [⟨stepName, status⟩]
  | s :: rest, stepName, status =>
      if s.name = stepName then { s with status := status } :: rest
      else s :: updateStepList rest stepName status

/-- Translation of `DeploymentManager._update_deployment_step`: set
`deployment['progress']`, update or append the step, and append the
`Step: name - status` log line.  Persistence (`_save_deployments`) and the
WebSocket emission do not change the record and are dropped. -/
def updateDeploymentStep (d : Deployment) (stepName status : String) (progress : Nat) :
    Deployment :=
  addLog { d with progress := progress, steps := updateStepList d.steps stepName status }
    ("Step: " ++ stepName ++ " - " ++ status)

/-- Translation of `DeploymentManager._configure_cloudflare`.  `Except.error`
is the exception the Python function raises (caught by
`_execute_deployment`); on API success the record id is stored and logged. -/
def configureCloudflare (cfg : Config) (out : CfOutcome) (d : Deployment) :
    Except String Deployment :=
  if cfg.cf_api_token = "" ∨ cfg.cf_zone_id = "" then
    Except.error "Cloudflare not configured"
  else
    match out with
    | .raised msg => Except.error msg
    | .apiSuccess recordId =>
        Except.ok (addLog { d with cf_record_id := some recordId }
          ("Cloudflare DNS record created: " ++ recordId))
    | .apiError errs => Except.error ("Cloudflare API error: " ++ errs)

/-- Translation of `DeploymentManager._configure_unifi`: never raises; logs a
skip message when the controller URL is empty, a placeholder line otherwise. -/
def configureUnifi (cfg : Config) (d : Deployment) : Deployment :=
  if cfg.unifi_url = "" then addLog d "UniFi not configured, skipping"
  else addLog d "UniFi port forwarding configuration (placeholder)"

/-- Translation of `DeploymentManager._configure_npm`: raises when the NPM API
URL is empty, otherwise logs a placeholder line. -/
def configureNpm (cfg : Config) (d : Deployment) : Except String Deployment :=
  if cfg.npm_api_url = "" then Except.error "NPM not configured"
  else Except.ok (addLog d "NPM proxy configuration (placeholder)")

/-- Translation of `DeploymentManager.create_pterodactyl_server`: fails when
Pterodactyl is not configured/enabled or any of the nest/egg/node/allocation
selectors is absent from the deployment record; otherwise the HTTP outcome
decides, and the server name is `f"{subdomain or 'server'}-{game_type or
'game'}"` (defaults follow `deployment.get(..., ...)` on the record). -/
def createPterodactylServer (cfg : Config) (out : PteroOutcome) (d : Deployment) :
    PteroResult :=
  if ¬ cfg.pterodactyl_enabled ∨ cfg.pterodactyl_url = "" ∨ cfg.pterodactyl_api_key = "" then
    .failure "Pterodactyl not configured or not enabled"
  else if d.pterodactyl_nest_id = none ∨ d.pterodactyl_egg_id = none ∨
      d.pterodactyl_node_id = none ∨ d.pterodactyl_allocation_id = none then
    .failure "Missing required Pterodactyl parameters (nest, egg, node, or allocation)"
  else
    match out with
    | .created serverId serverUuid =>
        .success serverId serverUuid
          ((d.subdomain.getD "server") ++ "-" ++ (d.game_type.getD "game"))
    | .httpError msg => .failure msg

/-- The `except` branch at the end of `_execute_deployment`: set status and
state to `failed`, record the error message, and append the `ERROR: ` log
line. -/
def deploymentFailed (d : Deployment) (msg : String) : Deployment :=
  addLog { d with status := "failed", state := "failed", error := some msg }
    ("ERROR: " ++ msg)

/-- The completion epilogue of `_execute_deployment`: status and state become
`completed` and progress `100`. -/
def deploymentCompleted (d : Deployment) : Deployment :=
  { d with status := "completed", state := "completed", progress := 100 }

/-- Translation of `DeploymentManager._execute_deployment` as the list of
successive deployment states, one snapshot after each mutation of the record
(the head is the state the worker starts from, the last element the terminal
state).  The control flow mirrors the source: Cloudflare DNS, optional UniFi,
Nginx Proxy Manager, then Pterodactyl only when it is enabled and the record
carries an egg selector; any raised exception jumps to `deploymentFailed`. -/
def executeTrace (cfg : Config) (env : Env) (d : Deployment) : List Deployment :=
  let d1 := updateDeploymentStep d "Cloudflare DNS" "active" 10
  match configureCloudflare cfg env.cf d1 with
  | .error msg => [d, d1, deploymentFailed d1 msg]
  | .ok d2 =>
    let d3 := updateDeploymentStep d2 "Cloudflare DNS" "completed" 25
    let pre := [d, d1, d2, d3]
    let st :=
      if cfg.enable_auto_unifi then
        let a := updateDeploymentStep d3 "UniFi Port Forwarding" "active" 30
        let b := configureUnifi cfg a
        let c := updateDeploymentStep b "UniFi Port Forwarding" "completed" 50
        (pre ++ [a, b, c], c)
      else (pre, d3)
    let d5 := updateDeploymentStep st.2 "Nginx Proxy Manager" "active" 55
    match configureNpm cfg d5 with
    | .error msg => st.1 ++ [d5, deploymentFailed d5 msg]
    | .ok d6 =>
      let d7 := updateDeploymentStep d6 "Nginx Proxy Manager" "completed" 75
      let pre2 := st.1 ++ [d5, d6, d7]
      if cfg.pterodactyl_enabled ∧ d7.pterodactyl_egg_id.isSome then
        let d8 := updateDeploymentStep d7 "Pterodactyl Server" "active" 80
        let d9 := addLog d8 "Creating Pterodactyl game server..."
        match createPterodactylServer cfg env.ptero d9 with
        | .success serverId serverUuid serverName =>
          let d10 := { d9 with pterodactyl_server_id := some serverId,
                               pterodactyl_server_uuid := some serverUuid }
          let d11 := addLog d10
            ("✓ Server created: " ++ serverName ++ " (ID: " ++ toString serverId ++ ")")
          let d12 := updateDeploymentStep d11 "Pterodactyl Server" "completed" 100
          pre2 ++ [d8, d9, d10, d11, d12, deploymentCompleted d12]
        | .failure err =>
          pre2 ++ [d8, d9, deploymentFailed d9 ("Pterodactyl server creation failed: " ++ err)]
      else
        let d8 := addLog d7 "Skipping Pterodactyl (not configured or no egg selected)"
        pre2 ++ [d8, deploymentCompleted d8]

/-- The terminal state of one `_execute_deployment` run: the last snapshot of
`executeTrace`. -/
def executeDeployment (cfg : Config) (env : Env) (d : Deployment) : Deployment :=
  (executeTrace cfg env d).getLastD d

/-- Translation of the deployment-id expression in `start_deployment`:
`f"deploy_{int(time.time())}_{os.getpid()}"`. -/
def genDeploymentId (epochSeconds pid : Nat) : String :=
  "deploy_" ++ toString epochSeconds ++ "_" ++ toString pid

/-- The record `start_deployment` builds and stores before spawning the
worker thread (`deployment_manager.py` lines 359-382); `nowIso` stands for
`datetime.now().isoformat()`. -/
def initialDeployment (cfg : Config) (dc : DeploymentConfig) (epochSeconds pid : Nat)
    (nowIso : String) : Deployment :=
  { deployment_id := genDeploymentId epochSeconds pid
    subdomain := dc.subdomain
    server_ip := dc.server_ip
    game_port := dc.game_port
    game_type := dc.game_type
    additional_ports := dc.additional_ports
    memory := dc.memory.getD 4096
    disk := dc.disk.getD 10240
    enable_ssl := dc.enable_ssl.getD true
    enable_monitoring := dc.enable_monitoring.getD false
    protocol := dc.protocol.getD "tcp_udp"
    domain := cfg.domain
    created_at := nowIso
    status := "in_progress"
    state := "starting"
    progress := 0
    steps := []
    cf_record_id := none
    unifi_rule_ids := []
    npm_proxy_id := none
    ptero_server_uuid := none
    logs := [] }

/-- Lookup in `self.deployments` (a Python dict keyed by deployment id),
embedded as an association list. -/
def regFind : List (String × Deployment) → String → Option Deployment
  | [], _ => none
  | (k, v) :: rest, id => if k = id then some v else regFind rest id

/-- Key assignment `self.deployments[id] = d` with Python-dict semantics:
overwrite the existing entry for the key, or append a new one. -/
def regInsert : List (String × Deployment) → String → Deployment →
    List (String × Deployment)
  | [], id, d => [(id, d)]
  | (k, v) :: rest, id, d =>
      if k = id then (id, d) :: rest else (k, v) :: regInsert rest id d

/-- The template dict passed to `save_template` (`template_data`); the payload
fields mirror what `start_deployment` saves when `save_template` is set. -/
structure TemplateData where
  name : Option String := none
  game_type : Option String := none
  game_port : Option Nat := none
  memory : Option Nat := none
  disk : Option Nat := none
  additional_ports : List Nat := []
  protocol : Option String := none
deriving Repr, DecidableEq

/-- The template directory contents: written files keyed by absolute path. -/
abbrev TemplateStore := List (String × TemplateData)

/-- Membership of a character in the class `[a-zA-Z0-9_-]` of
`_SAFE_TEMPLATE_NAME`. -/
def isSafeTemplateChar (c : Char) : Bool :=
  (('a' ≤ c ∧ c ≤ 'z') ∨ ('A' ≤ c ∧ c ≤ 'Z') ∨ ('0' ≤ c ∧ c ≤ '9') ∨ c = '_' ∨ c = '-')

/-- A string consisting of 1 to 64 characters of the safe class — the language
of `[a-zA-Z0-9_-]{1,64}` itself (stated over the character list). -/
def safeCore (s : String) : Bool :=
  1 ≤ s.data.length ∧ s.data.length ≤ 64 ∧ s.data.all isSafeTemplateChar

/-- Semantics of `re.match(r'^[a-zA-Z0-9_-]{1,64}$', s)`: in Python, `$`
matches at the end of the string or just before a newline at the end of the
string, so a name consisting of safe characters followed by one trailing
newline is also accepted. -/
def pySafeTemplateMatch (s : String) : Bool :=
  safeCore s ∨ (s.data.getLast? = some '\n' ∧ safeCore (String.mk s.data.dropLast))

/-- Path components of a filename, cut at `/` (the splitting underlying the
escape test below). -/
def splitOnSlash : List Char → List (List Char)
  | [] => [[]]
  | c :: rest =>
      let r := splitOnSlash rest
      if c = '/' then [] :: r
      else (c :: r.headD []) :: r.tail

/-- Escape test for the `resolve()` containment check in `_template_path`: a
relative filename escapes the base directory exactly when some path component
is `..` (an absolute name replaces the base outright).  Names that pass
validation contain no `/` and cannot form a `..` component once `.json` is
appended. -/
def pathEscapes (fname : String) : Bool :=
  fname.data.head? = some '/' ∨ (splitOnSlash fname.data).any (· = ['.', '.'])

/-- Translation of `DeploymentManager._template_path`: reject empty or
non-matching names with a `ValueError`, then resolve `base / f"{name}.json"`
and reject paths outside the template root. -/
def templatePath (name : String) : Except String String :=
  if name = "" ∨ ¬ pySafeTemplateMatch name then
    Except.error "Invalid template name (allowed: a-zA-Z0-9_- up to 64 chars)"
  else
    let fname := name ++ ".json"
    if pathEscapes fname then Except.error "Invalid template path"
    else Except.ok ("/app/templates/saved/" ++ fname)

/-- Result dict of `save_template` and `rollback_deployment`:
`{'success': ..., 'message'/'error': ...}`. -/
structure OpResult where
  success : Bool
  message : Option String := none
  error : Option String := none
deriving Repr, DecidableEq

/-- File write with overwrite semantics for the template store. -/
def regInsertT : TemplateStore → String → TemplateData → TemplateStore
  | [], p, td => [(p, td)]
  | (k, v) :: rest, p, td =>
      if k = p then (p, td) :: rest else (k, v) :: regInsertT rest p td

/-- Translation of `DeploymentManager.save_template`: a missing or falsy
(empty) name is rejected before path resolution; a `ValueError` from
`_template_path` is caught and returned as a failure dict; otherwise the
template file is written. -/
def saveTemplate (store : TemplateStore) (td : TemplateData) :
    OpResult × TemplateStore :=
  match td.name with
  | none => ({ success := false, error := some "Template name is required" }, store)
  | some n =>
      if n = "" then
        ({ success := false, error := some "Template name is required" }, store)
      else
        match templatePath n with
        | .error e => ({ success := false, error := some e }, store)
        | .ok p =>
            ({ success := true, message := some "Template saved successfully" },
              regInsertT store p td)

/-- Translation of `DeploymentManager.start_deployment`: build the id from the
current epoch second and process id, store the fresh record (status
`in_progress`), spawn the worker (modelled separately by `executeTrace` /
`executeDeployment`), and optionally save a template when the request asks
for it with a truthy template name.  Returns the id, the updated registry and
the updated template store. -/
def startDeployment (cfg : Config) (reg : List (String × Deployment))
    (store : TemplateStore) (dc : DeploymentConfig) (epochSeconds pid : Nat)
    (nowIso : String) : String × List (String × Deployment) × TemplateStore :=
  let id := genDeploymentId epochSeconds pid
  let d := initialDeployment cfg dc epochSeconds pid nowIso
  let reg := regInsert reg id d
  let store :=
    match dc.template_name with
    | some n =>
        if dc.save_template ∧ n ≠ "" then
          (saveTemplate store
            { name := some n, game_type := dc.game_type, game_port := dc.game_port,
              memory := dc.memory, disk := dc.disk,
              additional_ports := dc.additional_ports,
              protocol := some (dc.protocol.getD "tcp_udp") }).2
        else store
    | none => store
  (id, reg, store)

/-- Outcome of the compensating Cloudflare DNS `requests.delete` call in
`rollback_deployment`: the call returned (whatever the HTTP status — the
source never inspects the response) or raised an exception. -/
inductive CompOutcome where
  | ok
  | raised (msg : String)
deriving Repr, DecidableEq

/-- Translation of `DeploymentManager.rollback_deployment`.  Returns the new
registry, the result dict, and the list of DNS record ids passed to
compensating delete calls (for counting external calls).  An unknown id is
reported as a failure with nothing touched; when a `cf_record_id` handle is
recorded, exactly one delete carrying it is issued, and an exception from the
call is caught and returned as a failure dict with no registry change and no
deployment-log entry; otherwise the status is set to `rolled_back`. -/
def rollbackDeployment (cfg : Config) (reg : List (String × Deployment)) (id : String)
    (comp : CompOutcome) (nowIso : String) :
    List (String × Deployment) × OpResult × List String :=
  match regFind reg id with
  | none => (reg, { success := false, error := some "Deployment not found" }, [])
  | some d =>
      match d.cf_record_id with
      | some recordId =>
          match comp with
          | .raised msg => (reg, { success := false, error := some msg }, [recordId])
          | .ok =>
              (regInsert reg id
                { d with status := "rolled_back", rolled_back_at := some nowIso },
                { success := true, message := some "Deployment rolled back successfully" },
                [recordId])
      | none =>
          (regInsert reg id
            { d with status := "rolled_back", rolled_back_at := some nowIso },
            { success := true, message := some "Deployment rolled back successfully" },
            [])

/-- Translation of `DeploymentManager.get_deployment_logs`: the stored log
list, or the empty list for an unknown id. -/
def getDeploymentLogs (reg : List (String × Deployment)) (id : String) : List String :=
  match regFind reg id with
  | some d => d.logs
  | none => []

/-- The JSON + HTTP status answer of a Flask route. -/
structure LogsResponse where
  httpStatus : Nat
  success : Bool
  logs : List String
deriving Repr, DecidableEq

/-- Translation of the `GET /api/logs/<deployment_id>` route in `app.py`: the
manager call is total, so the `except` branch is unreachable and the route
always answers HTTP 200 with `success: true` and the (possibly empty) log
list — there is no not-found branch, unlike the status route. -/
def getDeploymentLogsRoute (reg : List (String × Deployment)) (id : String) :
    LogsResponse :=
  { httpStatus := 200, success := true, logs := getDeploymentLogs reg id }

/-- Configuration used by concrete test runs: Cloudflare, NPM and UniFi
configured, UniFi automation on, Pterodactyl off. -/
def cfgFull : Config :=
  { domain := "example.com", cf_api_token := "tok", cf_zone_id := "zone",
    npm_api_url := "http://npm", unifi_url := "http://unifi",
    enable_auto_unifi := true, pterodactyl_enabled := false,
    pterodactyl_url := "", pterodactyl_api_key := "", public_ip := "1.2.3.4" }

/-- One worker run on a record freshly created by `start_deployment`: the end
state of `_execute_deployment` on the stored record. -/
def runDeployment (cfg : Config) (env : Env) (dc : DeploymentConfig) (t pid : Nat)
    (now : String) : Deployment :=
  executeDeployment cfg env (initialDeployment cfg dc t pid now)

/-- The state snapshots of one worker run on a freshly created record. -/
def runTrace (cfg : Config) (env : Env) (dc : DeploymentConfig) (t pid : Nat)
    (now : String) : List Deployment :=
  executeTrace cfg env (initialDeployment cfg dc t pid now)

/-- Modelled from the spec: the claim's safe template-name pattern
`[A-Za-z0-9_-]{1,64}`, stated as a total predicate on names, for comparison
with the source regex's Python semantics (`pySafeTemplateMatch`). -/
def specSafeName (s : String) : Bool :=
  1 ≤ s.data.length ∧ s.data.length ≤ 64 ∧ s.data.all isSafeTemplateChar

/-- Desired state of the spec's scenario 1: `subdomain "test1", port 25565`. -/
def dcEx : DeploymentConfig :=
  { subdomain := some "test1", game_port := some 25565, protocol := some "tcp" }

/-- A record as `start_deployment` stores it, before the worker has run. -/
def dInProgress : Deployment :=
  initialDeployment cfgFull dcEx 1700000000 7 "2026-01-01T00:00:00"

/-- A failed deployment whose only recorded external handle is the Cloudflare
DNS record id `"abc123"` (the spec's scenario 4 input). -/
def dFailedDns : Deployment :=
  { dInProgress with status := "failed", cf_record_id := some "abc123" }

/-- Dict-lookup of a freshly assigned key returns the assigned record. -/
theorem regFind_regInsert (reg : List (String × Deployment)) (id : String)
    (d : Deployment) : regFind (regInsert reg id d) id = some d := by
  induction reg with
  | nil => simp [regInsert, regFind]
  | cons kv rest ih =>
      obtain ⟨k, v⟩ := kv
      by_cases h : k = id <;> simp [regInsert, regFind, h, ih]

/-- C10: for every deployment id not present in the registry, rollback returns
the failure outcome `Deployment not found` without raising; the registry is
unchanged and no compensating call is issued. -/
theorem c10_rollback_unknown_id (cfg : Config) (reg : List (String × Deployment))
    (id : String) (comp : CompOutcome) (now : String)
    (h : regFind reg id = none) :
    rollbackDeployment cfg reg id comp now =
      (reg, { success := false, error := some "Deployment not found" }, []) := by
  unfold rollbackDeployment
  rw [h]

theorem c10_rollback_unknown_id_witness :
    rollbackDeployment cfgFull [] "deploy_missing" CompOutcome.ok "t" =
      ([], { success := false, error := some "Deployment not found" }, []) :=
  c10_rollback_unknown_id cfgFull [] "deploy_missing" CompOutcome.ok "t" (by decide)

/-- C9 counterexample: a logs query for an id absent from the registry answers
HTTP 200 with `success: true` and an empty list — a success result with no
not-found signal, contrary to the claim. -/
theorem c9_counterexample :
    regFind [] "deploy_missing" = none ∧
    getDeploymentLogsRoute [] "deploy_missing" =
      { httpStatus := 200, success := true, logs := [] } := by
  decide

/-- C9 amended: a logs query for an unknown deployment id never raises and
returns an empty log list, but as a plain success response (HTTP 200,
`success: true`) with no not-found signal at the interface boundary. -/
theorem c9_logs_unknown_id (reg : List (String × Deployment)) (id : String)
    (h : regFind reg id = none) :
    getDeploymentLogsRoute reg id = { httpStatus := 200, success := true, logs := [] } := by
  simp [getDeploymentLogsRoute, getDeploymentLogs, h]

theorem c9_logs_unknown_id_witness :
    getDeploymentLogsRoute [("deploy_1700000000_7", dInProgress)] "other" =
      { httpStatus := 200, success := true, logs := [] } :=
  c9_logs_unknown_id [("deploy_1700000000_7", dInProgress)] "other" (by decide)

/-- C6 counterexample: the record `start_deployment` creates and persists
carries status `in_progress` (and transient state `starting`) from the
moment it is stored — it is never `pending`. -/
theorem c6_counterexample :
    (regFind (startDeployment cfgFull [] [] dcEx 1700000000 7 "t").2.1
        "deploy_1700000000_7").map Deployment.status = some "in_progress" ∧
    "in_progress" ≠ "pending" := by
  decide

/-- C6 amended: for every deployment creation request the record is created
and persisted immediately — with initial status `in_progress`, empty step
list and progress `0` — before the worker executes any stage (the stored
record is exactly `initialDeployment`, untouched by `executeDeployment`). -/
theorem c6_initial_record (cfg : Config) (reg : List (String × Deployment))
    (store : TemplateStore) (dc : DeploymentConfig) (t pid : Nat) (now : String) :
    regFind (startDeployment cfg reg store dc t pid now).2.1
        (startDeployment cfg reg store dc t pid now).1 =
      some (initialDeployment cfg dc t pid now) ∧
    (initialDeployment cfg dc t pid now).status = "in_progress" ∧
    (initialDeployment cfg dc t pid now).steps = [] ∧
    (initialDeployment cfg dc t pid now).progress = 0 := by
  refine ⟨?_, rfl, rfl, rfl⟩
  simp [startDeployment, regFind_regInsert]

/-- C4: the deployment id depends only on the epoch second and the process
id, so any two creation calls within the same second of the same process
produce the identical id, and the second record overwrites the first in the
registry (one entry remains after two creations). -/
theorem c4_duplicate_ids :
    (∀ (cfg : Config) (reg : List (String × Deployment)) (store : TemplateStore)
        (dcA dcB : DeploymentConfig) (t pid : Nat) (nowA nowB : String),
      (startDeployment cfg reg store dcA t pid nowA).1 =
        (startDeployment cfg reg store dcB t pid nowB).1) ∧
    ((startDeployment cfgFull
        (startDeployment cfgFull [] [] { subdomain := some "first" } 1700000000 7 "t1").2.1
        [] { subdomain := some "second" } 1700000000 7 "t2").2.1.length = 1) := by
  exact ⟨fun _ _ _ _ _ _ _ _ _ => rfl, by decide⟩

/-- C2 counterexample: on the scenario-4 deployment (only handle: DNS record
`abc123`), a compensating delete that raises leaves the registry — and hence
the status (`failed`, not `rolled_back`) and the log — unchanged; the failure
is only returned in the outcome dict, not recorded in the deployment's
log/error trail.  One compensate call with `abc123` was issued. -/
theorem c2_counterexample :
    rollbackDeployment cfgFull [("deploy_1700000000_7", dFailedDns)]
        "deploy_1700000000_7" (CompOutcome.raised "Connection timed out") "t" =
      ([("deploy_1700000000_7", dFailedDns)],
        { success := false, error := some "Connection timed out" }, ["abc123"]) ∧
    dFailedDns.status = "failed" ∧ dFailedDns.logs = [] := by
  decide

/-- C2 amended: for a deployment whose only recorded handle is a DNS record
id, rollback issues exactly one compensating call carrying exactly that
handle; when the call returns (whatever the HTTP response) the status is set
to `rolled_back` and the outcome reports success, but when the call raises,
the deployment is left entirely unchanged — status not `rolled_back`, nothing
appended to its log — and the failure is reported only in the returned
outcome dict. -/
theorem c2_rollback_dns_compensation (cfg : Config)
    (reg : List (String × Deployment)) (id : String) (d : Deployment)
    (recordId : String) (comp : CompOutcome) (now : String)
    (hfind : regFind reg id = some d) (hrid : d.cf_record_id = some recordId) :
    (rollbackDeployment cfg reg id comp now).2.2 = [recordId] ∧
    (comp = CompOutcome.ok →
      (rollbackDeployment cfg reg id comp now).2.1 =
        { success := true, message := some "Deployment rolled back successfully" } ∧
      regFind (rollbackDeployment cfg reg id comp now).1 id =
        some { d with status := "rolled_back", rolled_back_at := some now }) ∧
    (∀ msg, comp = CompOutcome.raised msg →
      (rollbackDeployment cfg reg id comp now).1 = reg ∧
      (rollbackDeployment cfg reg id comp now).2.1 =
        { success := false, error := some msg }) := by
  unfold rollbackDeployment
  rw [hfind]
  cases comp <;> simp [hrid, regFind_regInsert]

theorem c2_rollback_dns_compensation_witness :
    (rollbackDeployment cfgFull [("deploy_1700000000_7", dFailedDns)]
        "deploy_1700000000_7" CompOutcome.ok "t").2.2 = ["abc123"] ∧
    (CompOutcome.ok = CompOutcome.ok →
      (rollbackDeployment cfgFull [("deploy_1700000000_7", dFailedDns)]
          "deploy_1700000000_7" CompOutcome.ok "t").2.1 =
        { success := true, message := some "Deployment rolled back successfully" } ∧
      regFind (rollbackDeployment cfgFull [("deploy_1700000000_7", dFailedDns)]
          "deploy_1700000000_7" CompOutcome.ok "t").1 "deploy_1700000000_7" =
        some { dFailedDns with status := "rolled_back", rolled_back_at := some "t" }) ∧
    (∀ msg, CompOutcome.ok = CompOutcome.raised msg →
      (rollbackDeployment cfgFull [("deploy_1700000000_7", dFailedDns)]
          "deploy_1700000000_7" CompOutcome.ok "t").1 =
        [("deploy_1700000000_7", dFailedDns)] ∧
      (rollbackDeployment cfgFull [("deploy_1700000000_7", dFailedDns)]
          "deploy_1700000000_7" CompOutcome.ok "t").2.1 =
        { success := false, error := some msg }) :=
  c2_rollback_dns_compensation cfgFull [("deploy_1700000000_7", dFailedDns)]
    "deploy_1700000000_7" dFailedDns "abc123" CompOutcome.ok "t"
    (by decide) (by decide)

/-- C3 counterexample: a rollback request against a deployment whose status is
`in_progress` is not rejected — it succeeds and moves the status to
`rolled_back`, contrary to the claim that non-terminal deployments are
rejected as invalid with status unchanged. -/
theorem c3_counterexample :
    dInProgress.status = "in_progress" ∧
    (rollbackDeployment cfgFull [("deploy_1700000000_7", dInProgress)]
        "deploy_1700000000_7" CompOutcome.ok "t").2.1.success = true ∧
    (regFind (rollbackDeployment cfgFull [("deploy_1700000000_7", dInProgress)]
        "deploy_1700000000_7" CompOutcome.ok "t").1
        "deploy_1700000000_7").map Deployment.status = some "rolled_back" := by
  decide

/-- C3 amended: `rollback_deployment` performs no status check at all — for
every deployment present in the registry, whatever its current status
(including `pending` and `in_progress`), a rollback whose compensating call
does not raise sets the status to `rolled_back` and reports success; the
explicit rollback transition is thus available from every status, not only
from `failed`/`completed`, and a rollback request against a non-terminal
deployment is not rejected. -/
theorem c3_rollback_ignores_status (cfg : Config)
    (reg : List (String × Deployment)) (id : String) (d : Deployment)
    (comp : CompOutcome) (now : String)
    (hfind : regFind reg id = some d)
    (hcomp : d.cf_record_id = none ∨ comp = CompOutcome.ok) :
    regFind (rollbackDeployment cfg reg id comp now).1 id =
      some { d with status := "rolled_back", rolled_back_at := some now } ∧
    (rollbackDeployment cfg reg id comp now).2.1.success = true := by
  unfold rollbackDeployment
  rw [hfind]
  rcases hcomp with hnone | hok
  · simp [hnone, regFind_regInsert]
  · subst hok
    cases hcf : d.cf_record_id <;> simp [hcf, regFind_regInsert]

theorem c3_rollback_ignores_status_witness :
    regFind (rollbackDeployment cfgFull [("deploy_1700000000_7", dInProgress)]
        "deploy_1700000000_7" CompOutcome.ok "t").1 "deploy_1700000000_7" =
      some { dInProgress with status := "rolled_back", rolled_back_at := some "t" } ∧
    (rollbackDeployment cfgFull [("deploy_1700000000_7", dInProgress)]
        "deploy_1700000000_7" CompOutcome.ok "t").2.1.success = true :=
  c3_rollback_ignores_status cfgFull [("deploy_1700000000_7", dInProgress)]
    "deploy_1700000000_7" dInProgress CompOutcome.ok "t" (by decide) (Or.inr rfl)

/-- C7 counterexample: the name `"a\n"` lies outside the claim's safe pattern
`[A-Za-z0-9_-]{1,64}`, yet `save_template` accepts it — Python's `$` also
matches just before a trailing newline — and a storage write occurs. -/
theorem c7_counterexample :
    specSafeName "a\n" = false ∧
    (saveTemplate [] { name := some "a\n" }).1.success = true ∧
    (saveTemplate [] { name := some "a\n" }).2 =
      [("/app/templates/saved/a\n.json", { name := some "a\n" })] := by
  decide

/-- C7 amended: every template name rejected by the source's Python regex
semantics — the safe pattern optionally followed by one trailing newline — is
refused with an invalid-name error and no storage write occurs (in particular
every name containing `/`, such as `../x`); any accepted name writes only the
file `<template root>/<name>.json`, so no path outside the template root is
addressed.  (Names made of safe characters plus a trailing newline, accepted
by `$`, are the sole difference from the claim's pattern.) -/
theorem c7_template_name_validation (store : TemplateStore) (td : TemplateData)
    (n : String) (hname : td.name = some n) :
    (pySafeTemplateMatch n = false →
      (saveTemplate store td).1.success = false ∧ (saveTemplate store td).2 = store) ∧
    ((saveTemplate store td).2 = store ∨
      (saveTemplate store td).2 =
        regInsertT store ("/app/templates/saved/" ++ n ++ ".json") td) := by
  unfold saveTemplate
  rw [hname]
  by_cases hempty : n = ""
  · simp [hempty]
  · constructor
    · intro hbad
      simp [hempty, templatePath, hbad]
    · by_cases hmatch : pySafeTemplateMatch n
      · by_cases hesc : pathEscapes (n ++ ".json")
        · simp [hempty, templatePath, hmatch, hesc]
        · simp [hempty, templatePath, hmatch, hesc, String.append_assoc]
      · simp [hempty, templatePath, hmatch]

theorem c7_template_name_validation_witness :
    (pySafeTemplateMatch "../../etc/passwd" = false →
      (saveTemplate [] { name := some "../../etc/passwd" }).1.success = false ∧
      (saveTemplate [] { name := some "../../etc/passwd" }).2 = []) ∧
    ((saveTemplate [] { name := some "../../etc/passwd" }).2 = [] ∨
      (saveTemplate [] { name := some "../../etc/passwd" }).2 =
        regInsertT [] ("/app/templates/saved/" ++ "../../etc/passwd" ++ ".json")
          { name := some "../../etc/passwd" }) :=
  c7_template_name_validation [] { name := some "../../etc/passwd" }
    "../../etc/passwd" (by decide)

/-- C1 counterexample: scenario-2 run (DNS adapter raises a timeout).  The
deployment ends `failed` with the error logged, but the Cloudflare step keeps
status `active` — it is never marked `failed`, so no step entry (let alone
exactly one) has status `failed`, contrary to the claim. -/
theorem c1_counterexample :
    (runDeployment cfgFull ⟨.raised "Connection timed out", .httpError "x"⟩
        dcEx 1700000000 7 "t").status = "failed" ∧
    (runDeployment cfgFull ⟨.raised "Connection timed out", .httpError "x"⟩
        dcEx 1700000000 7 "t").steps = [⟨"Cloudflare DNS", "active"⟩] ∧
    (∀ s ∈ (runDeployment cfgFull ⟨.raised "Connection timed out", .httpError "x"⟩
        dcEx 1700000000 7 "t").steps, s.status ≠ "failed") := by
  decide

set_option maxHeartbeats 1000000 in
/-- C1 amended: when a stage's adapter call fails, an `ERROR: ` log line with
the error message is appended, the deployment status becomes `failed` with
the message recorded, no subsequent stage's step is created (so none is
marked `active` or `completed`), and the steps of all earlier stages are
`completed` — but the failing stage's step retains status `active`; no step
entry is ever marked `failed`. -/
theorem c1_failure_semantics (cfg : Config) (env : Env) (dc : DeploymentConfig)
    (t pid : Nat) (now : String)
    (hfail : (runDeployment cfg env dc t pid now).status = "failed") :
    (∀ s ∈ (runDeployment cfg env dc t pid now).steps, s.status ≠ "failed") ∧
    (∃ m, (runDeployment cfg env dc t pid now).error = some m ∧
      ("ERROR: " ++ m) ∈ (runDeployment cfg env dc t pid now).logs) ∧
    ((runDeployment cfg env dc t pid now).steps.getLast?.map Step.status = some "active") ∧
    (∀ s ∈ (runDeployment cfg env dc t pid now).steps.dropLast, s.status = "completed") := by
  by_cases hcf : (cfg.cf_api_token = "" ∨ cfg.cf_zone_id = "")
  all_goals cases hc : env.cf
  all_goals cases hu : cfg.enable_auto_unifi
  all_goals by_cases hw : cfg.unifi_url = ""
  all_goals by_cases hn : cfg.npm_api_url = ""
  all_goals simp_all [runDeployment, executeDeployment, executeTrace, initialDeployment,
    updateDeploymentStep, addLog, configureCloudflare, configureUnifi, configureNpm,
    createPterodactylServer, deploymentFailed, deploymentCompleted, updateStepList]

theorem c1_failure_semantics_witness :
    (∀ s ∈ (runDeployment cfgFull ⟨.raised "Connection timed out", .httpError "x"⟩
        dcEx 1700000000 7 "t").steps, s.status ≠ "failed") ∧
    (∃ m, (runDeployment cfgFull ⟨.raised "Connection timed out", .httpError "x"⟩
        dcEx 1700000000 7 "t").error = some m ∧
      ("ERROR: " ++ m) ∈ (runDeployment cfgFull ⟨.raised "Connection timed out", .httpError "x"⟩
        dcEx 1700000000 7 "t").logs) ∧
    ((runDeployment cfgFull ⟨.raised "Connection timed out", .httpError "x"⟩
        dcEx 1700000000 7 "t").steps.getLast?.map Step.status = some "active") ∧
    (∀ s ∈ (runDeployment cfgFull ⟨.raised "Connection timed out", .httpError "x"⟩
        dcEx 1700000000 7 "t").steps.dropLast, s.status = "completed") :=
  c1_failure_semantics cfgFull ⟨.raised "Connection timed out", .httpError "x"⟩
    dcEx 1700000000 7 "t" (by decide)

/-- Configuration with the reverse-proxy manager (NPM) unconfigured and
everything else as in `cfgFull`. -/
def cfgNoNpm : Config := { cfgFull with npm_api_url := "" }

/-- C5 counterexample: with NPM unconfigured, the Nginx Proxy Manager stage is
not skipped — its step is marked `active` and `_configure_npm` raises, so the
whole deployment fails with `NPM not configured`, contrary to the claim that
an unconfigured stage is skipped entirely and never causes a failure. -/
theorem c5_counterexample :
    (runDeployment cfgNoNpm ⟨.apiSuccess "abc123", .httpError "x"⟩
        dcEx 1700000000 7 "t").status = "failed" ∧
    (⟨"Nginx Proxy Manager", "active"⟩ : Step) ∈
      (runDeployment cfgNoNpm ⟨.apiSuccess "abc123", .httpError "x"⟩
        dcEx 1700000000 7 "t").steps ∧
    (runDeployment cfgNoNpm ⟨.apiSuccess "abc123", .httpError "x"⟩
        dcEx 1700000000 7 "t").error = some "NPM not configured" := by
  decide

/-- C5 amended: the skip behavior is per-stage, not uniform.  In a run whose
DNS stage succeeds: an unconfigured NPM stage is marked `active` and then
fails the deployment with `NPM not configured`; the Pterodactyl stage is the
only one skipped entirely (its step is never created, and on runs that get
past NPM the `Skipping Pterodactyl` log line is appended — `start_deployment`
never stores the hosting-panel selectors, so this always happens); an
unconfigured UniFi stage with automation enabled is not skipped but marked
`active` and `completed` around a `UniFi not configured, skipping` log line;
with automation disabled the UniFi stage is omitted without any log line. -/
theorem c5_stage_skip_behavior (cfg : Config) (dc : DeploymentConfig) (t pid : Nat)
    (now : String) (recordId : String) (po : PteroOutcome)
    (htok : cfg.cf_api_token ≠ "") (hzone : cfg.cf_zone_id ≠ "") :
    (cfg.npm_api_url = "" →
      (runDeployment cfg ⟨.apiSuccess recordId, po⟩ dc t pid now).status = "failed" ∧
      (⟨"Nginx Proxy Manager", "active"⟩ : Step) ∈
        (runDeployment cfg ⟨.apiSuccess recordId, po⟩ dc t pid now).steps ∧
      (runDeployment cfg ⟨.apiSuccess recordId, po⟩ dc t pid now).error =
        some "NPM not configured") ∧
    (∀ s ∈ (runDeployment cfg ⟨.apiSuccess recordId, po⟩ dc t pid now).steps,
      s.name ≠ "Pterodactyl Server") ∧
    (cfg.npm_api_url ≠ "" →
      "Skipping Pterodactyl (not configured or no egg selected)" ∈
        (runDeployment cfg ⟨.apiSuccess recordId, po⟩ dc t pid now).logs) ∧
    (cfg.enable_auto_unifi = true → cfg.unifi_url = "" →
      (⟨"UniFi Port Forwarding", "completed"⟩ : Step) ∈
        (runDeployment cfg ⟨.apiSuccess recordId, po⟩ dc t pid now).steps ∧
      "UniFi not configured, skipping" ∈
        (runDeployment cfg ⟨.apiSuccess recordId, po⟩ dc t pid now).logs) ∧
    (cfg.enable_auto_unifi = false →
      ∀ s ∈ (runDeployment cfg ⟨.apiSuccess recordId, po⟩ dc t pid now).steps,
        s.name ≠ "UniFi Port Forwarding") := by
  cases hu : cfg.enable_auto_unifi
  all_goals by_cases hw : cfg.unifi_url = ""
  all_goals by_cases hn : cfg.npm_api_url = ""
  all_goals simp_all [runDeployment, executeDeployment, executeTrace, initialDeployment,
    updateDeploymentStep, addLog, configureCloudflare, configureUnifi, configureNpm,
    createPterodactylServer, deploymentFailed, deploymentCompleted, updateStepList, htok, hzone]

theorem c5_stage_skip_behavior_witness :
    (cfgNoNpm.npm_api_url = "" →
      (runDeployment cfgNoNpm ⟨.apiSuccess "abc123", .httpError "x"⟩
          dcEx 1700000000 7 "t").status = "failed" ∧
      (⟨"Nginx Proxy Manager", "active"⟩ : Step) ∈
        (runDeployment cfgNoNpm ⟨.apiSuccess "abc123", .httpError "x"⟩
          dcEx 1700000000 7 "t").steps ∧
      (runDeployment cfgNoNpm ⟨.apiSuccess "abc123", .httpError "x"⟩
          dcEx 1700000000 7 "t").error = some "NPM not configured") ∧
    (∀ s ∈ (runDeployment cfgNoNpm ⟨.apiSuccess "abc123", .httpError "x"⟩
        dcEx 1700000000 7 "t").steps, s.name ≠ "Pterodactyl Server") ∧
    (cfgNoNpm.npm_api_url ≠ "" →
      "Skipping Pterodactyl (not configured or no egg selected)" ∈
        (runDeployment cfgNoNpm ⟨.apiSuccess "abc123", .httpError "x"⟩
          dcEx 1700000000 7 "t").logs) ∧
    (cfgNoNpm.enable_auto_unifi = true → cfgNoNpm.unifi_url = "" →
      (⟨"UniFi Port Forwarding", "completed"⟩ : Step) ∈
        (runDeployment cfgNoNpm ⟨.apiSuccess "abc123", .httpError "x"⟩
          dcEx 1700000000 7 "t").steps ∧
      "UniFi not configured, skipping" ∈
        (runDeployment cfgNoNpm ⟨.apiSuccess "abc123", .httpError "x"⟩
          dcEx 1700000000 7 "t").logs) ∧
    (cfgNoNpm.enable_auto_unifi = false →
      ∀ s ∈ (runDeployment cfgNoNpm ⟨.apiSuccess "abc123", .httpError "x"⟩
          dcEx 1700000000 7 "t").steps, s.name ≠ "UniFi Port Forwarding") :=
  c5_stage_skip_behavior cfgNoNpm dcEx 1700000000 7 "t" "abc123" (.httpError "x")
    (by decide) (by decide)

set_option maxHeartbeats 1000000 in
/-- C8: along every worker run the progress percentage is non-decreasing from
snapshot to snapshot (in particular across all updates made while the status
is `in_progress`); a run that ends `failed` never reaches progress `100` at
any snapshot, and a run that ends `completed` ends with progress `100`. -/
theorem c8_progress_monotone (cfg : Config) (env : Env) (dc : DeploymentConfig)
    (t pid : Nat) (now : String) :
    List.Chain' (fun a b => a.progress ≤ b.progress) (runTrace cfg env dc t pid now) ∧
    ((runDeployment cfg env dc t pid now).status = "failed" →
      ∀ s ∈ runTrace cfg env dc t pid now, s.progress < 100) ∧
    ((runDeployment cfg env dc t pid now).status = "completed" →
      (runDeployment cfg env dc t pid now).progress = 100) := by
  by_cases hcf : (cfg.cf_api_token = "" ∨ cfg.cf_zone_id = "")
  all_goals cases hc : env.cf
  all_goals cases hu : cfg.enable_auto_unifi
  all_goals by_cases hw : cfg.unifi_url = ""
  all_goals by_cases hn : cfg.npm_api_url = ""
  all_goals simp_all [runDeployment, runTrace, executeDeployment, executeTrace,
    initialDeployment, updateDeploymentStep, addLog, configureCloudflare, configureUnifi,
    configureNpm, createPterodactylServer, deploymentFailed, deploymentCompleted,
    updateStepList, List.chain'_cons]

theorem c8_progress_monotone_witness :
    List.Chain' (fun a b => a.progress ≤ b.progress)
      (runTrace cfgFull ⟨.apiSuccess "abc123", .httpError "x"⟩ dcEx 1700000000 7 "t") ∧
    ((runDeployment cfgFull ⟨.apiSuccess "abc123", .httpError "x"⟩
        dcEx 1700000000 7 "t").status = "failed" →
      ∀ s ∈ runTrace cfgFull ⟨.apiSuccess "abc123", .httpError "x"⟩ dcEx 1700000000 7 "t",
        s.progress < 100) ∧
    ((runDeployment cfgFull ⟨.apiSuccess "abc123", .httpError "x"⟩
        dcEx 1700000000 7 "t").status = "completed" →
      (runDeployment cfgFull ⟨.apiSuccess "abc123", .httpError "x"⟩
        dcEx 1700000000 7 "t").progress = 100) :=
  c8_progress_monotone cfgFull ⟨.apiSuccess "abc123", .httpError "x"⟩ dcEx 1700000000 7 "t"
